import Mathlib

/-!
Verification of `restore_net_use.py` against its natural-language
specification.  The Python source is shallowly embedded below: pure
functions become Lean functions, the module-level reconciliation loop
becomes a recursive function over an explicit state, the OS commands,
the clock and the file system are oracles passed in as parameters.
-/

namespace RestoreNetUse

/-! String helpers mirroring the Python string methods used by the script. -/

/-- Embedding of Python `str.splitlines`: every `\n`, `\r` or `\r\n`
terminates a line; a final segment without a terminator is also a line;
the empty string has no lines.  Accumulates the current line reversed. -/
def splitlinesAux : List Char → List Char → List String
  | [], cur => if cur.isEmpty then [] else [String.mk cur.reverse]
  | '\r' :: '\n' :: rest, cur => String.mk cur.reverse :: splitlinesAux rest []
  | c :: rest, cur =>
    if c = '\n' || c = '\r' then String.mk cur.reverse :: splitlinesAux rest []
    else splitlinesAux rest (c :: cur)

/-- Python `line.splitlines()`. -/
def splitlines (s : String) : List String :=
  splitlinesAux s.data []

/-- Embedding of Python `str.split()` with no argument: split on runs of
whitespace, discarding empty fields. -/
def pysplitAux : List Char → List Char → List String
  | [], cur => if cur.isEmpty then [] else [String.mk cur.reverse]
  | c :: rest, cur =>
    if c.isWhitespace then
      if cur.isEmpty then pysplitAux rest []
      else String.mk cur.reverse :: pysplitAux rest []
    else pysplitAux rest (c :: cur)

/-- Python `line.split()`. -/
def pysplit (s : String) : List String :=
  pysplitAux s.data []

/-- Embedding of Python `re.match("[A-Z]:", s)`: an anchored-at-start match,
so `s` must begin with an uppercase letter followed by a colon (anything may
follow, since `re.match` does not anchor the end). -/
def matchDrive (s : String) : Bool :=
  match s.data with
  | c0 :: c1 :: _ => 'A' ≤ c0 && c0 ≤ 'Z' && c1 = ':'
  | _ => false

/-! The parser (`parse_connections`, lines 143-157). -/

/-- A parsed connection record: `(connected, local_name, remote_path)`,
exactly the tuple `(cols[0] == 'OK', cols[1], cols[2])` built by the code. -/
abbrev Conn := Bool × String × String

/-- The boolean condition of line 154-155 of the source, on the split
columns of the current line and the next line.  Python's operator
precedence groups it as `(6-column row) or (3+3 wrapped row)`. -/
def rowMatch (cols nextcols : List String) : Bool :=
  (cols.length == 6 && matchDrive (cols.getD 1 "")
     && cols.drop 3 == ["Microsoft", "Windows", "Network"])
  || (cols.length == 3 && nextcols.length == 3 && matchDrive (cols.getD 1 "")
     && nextcols == ["Microsoft", "Windows", "Network"])

/-- Embedding of `parse_connections` (lines 143-157).  The Python iterates
`zip(lines[:-1], lines[1:])`, i.e. each line paired with its successor; the
final line therefore never appears as the current line of a pair.  The
`dumpnetuse` side effect only logs and does not affect the result, so it is
omitted here. -/
def parse_connections (text : String) : List Conn :=
  let lines := splitlines text
  (List.zip lines.dropLast (lines.drop 1)).filterMap fun p =>
    let cols := pysplit p.1
    let nextcols := pysplit p.2
    if rowMatch cols nextcols then
      some (cols.getD 0 "" == "OK", cols.getD 1 "", cols.getD 2 "")
    else none

/-! The parser as the spec describes it (for the C7 refinement claim).

These definitions follow the words of spec §4.3, independently of the
code: consume the lines in order; for each adjacent line pair, classify
with the 6-column pattern or the 3+3 wrapped pattern; a match yields
`(status == connected-marker, column 1, column 2)`. -/

/-- Spec §4.3, 6-column pattern: six columns, second a drive designator,
last three the literal protocol marker. -/
def spec_sixCol (cols : List String) : Bool :=
  cols.length == 6 && matchDrive (cols.getD 1 "")
    && cols.drop 3 == ["Microsoft", "Windows", "Network"]

/-- Spec §4.3, 3+3 wrapped pattern: current line has exactly 3 columns whose
second matches the local-name pattern, next line has exactly 3 columns equal
to the protocol marker. -/
def spec_wrapped (cols nextcols : List String) : Bool :=
  cols.length == 3 && matchDrive (cols.getD 1 "")
    && nextcols.length == 3 && nextcols == ["Microsoft", "Windows", "Network"]

/-- Spec §4.3 read over an ordered line sequence: classify each adjacent
line pair in order, emitting one record per matched pair. -/
def spec_rows : List String → List Conn
  | [] => []
  | [_] => []
  | l :: nxt :: rest =>
    (let cols := pysplit l
     let nextcols := pysplit nxt
     if spec_sixCol cols || spec_wrapped cols nextcols then
       [(cols.getD 0 "" == "OK", cols.getD 1 "", cols.getD 2 "")]
     else []) ++ spec_rows (nxt :: rest)

/-- The parser as §4.3 describes it, applied to a raw listing text. -/
def spec_parse (text : String) : List Conn :=
  spec_rows (splitlines text)

/-! Embedding of `list_connections` (lines 125-140).

One invocation of the `net use` subprocess is an oracle value: either it
succeeds with some output text, or it raises, and it takes `dur` seconds of
wall-clock time.  The source sets `start = datetime.datetime.now()` at the
TOP of the `while True` body (line 129), inside the loop, so the deadline
check on line 136 compares the clock against the start of the *current*
iteration only: it fires exactly when `dur > timeout` for that single
attempt.  The loop is modelled with fuel; `none` means the loop is still
running after `fuel` iterations. -/

structure ListAttempt where
  output : Option String
  dur : Nat
  deriving DecidableEq

/-- The `while True` retry loop of `list_connections`, attempt `i` onwards,
with `fuel` iterations of budget.  Returns `some (errors, capturedText)`
when the loop exits, `none` if the budget is exhausted with the loop still
running. -/
def list_connections_loop (timeout : Nat) (attempts : Nat → ListAttempt) :
    Nat → Nat → Option (Bool × Option String)
  | _, 0 => none
  | i, fuel + 1 =>
    let a := attempts i
    match a.output with
    | some out => some (false, some out)
    | none =>
      if a.dur > timeout then some (true, none)
      else list_connections_loop timeout attempts (i + 1) fuel

/-- Embedding of `list_connections` proper: run the retry loop, then
`return (errors, None if errors else parse_connections(net_use))`. -/
def list_connections (timeout : Nat) (attempts : Nat → ListAttempt) (fuel : Nat) :
    Option (Bool × Option (List Conn)) :=
  (list_connections_loop timeout attempts 0 fuel).map fun r =>
    (r.1, r.2.map parse_connections)

/-! Embedding of `log` (lines 79-95).

`log(logfile, lines, loglines)` returns the new value bound to `loglines`
by the caller's `loglines = log(...)` assignment.  `logfile : Bool` models
whether `args.logfile` is set (truthy); `writeOk` models whether opening
and writing the file succeeds (the `try` body runs to completion) or
raises.  Faithfully to the source:
  * if `logfile` is falsy or the line empty, the function returns `None`;
  * the `if loglines:` guard inside the `try` is Python truthiness, so an
    *empty* list is not appended to;
  * the final `if loglines: return loglines` likewise returns `None` for
    `None` or an empty list. -/
def log (logfile writeOk : Bool) (line : String) (loglines : Option (List String)) :
    Option (List String) :=
  if !logfile || line == "" then none
  else
    let loglines' : Option (List String) :=
      match loglines with
      | some ls => if writeOk && !ls.isEmpty then some (ls ++ [line]) else some ls
      | none => none
    match loglines' with
    | some ls => if ls.isEmpty then none else some ls
    | none => none

/-! The module-level reconciliation loop (lines 193-224). -/

/-- Observable actions of the run: a `log(args.logfile, s, loglines)` call
made by the loop, an invocation of the `net use <local> <remote>` connect
command via `connect`, and a `log_and_send` report. -/
inductive Event where
  | logCall (s : String)
  | connectCall (idx : Nat) (c : Conn)
  | logAndSend (s : String)
  deriving DecidableEq

/-- Whether an event is an invocation of the OS connect command. -/
def Event.isConnect : Event → Bool
  | .connectCall _ _ => true
  | _ => false

/-- How the process ends: `sys.exit(n)`, an uncaught `NameError` from
reading the undefined `logline` variable, a `ValueError` from the sanity
checks, or falling off the end of the script after the final `send`. -/
inductive ExitKind where
  | code (n : Nat)
  | nameError
  | configError (msg : String)
  | done
  deriving DecidableEq

/-- The outcome of a run: the events in program order, how the process
ended, and the `loglines` value passed to the final `send` (`none` when
the final `send` was never reached, or when the variable was `None`). -/
structure RunOutcome where
  events : List Event
  exit : ExitKind
  mailedBody : Option (List String)
  deriving DecidableEq

/-- Line 215: `reportline = "{}{}".format(connection[1], connection[2])`. -/
def reportline (c : Conn) : String := c.2.1 ++ c.2.2

/-- Result of the per-record `for idx, connection in enumerate(connections)`
loop (lines 214-221): events, the indices at which `connect` was invoked,
the strings passed to `log` (one per record processed), the final values of
the `logline` and `loglines` variables, and whether a `NameError` was
raised by reading `logline` before any assignment. -/
structure RecordsResult where
  events : List Event
  attempted : List Nat
  emitted : List String
  logline : Option String
  loglines : Option (List String)
  nameError : Bool
  deriving DecidableEq

/-- The per-record loop.  `connectOk i` is the oracle for the outcome of
`connect(connections[i], timeout)` this pass.  For a disconnected record the
guard `(onebyone and not idx or not onebyone)` decides whether `connect` is
even called (Python short-circuit); either way `logline` is assigned.  For a
connected record `logline` is left as-is and then read by the `log` call on
line 221 — reading it when it was never assigned raises `NameError`. -/
def processRecords (onebyone : Bool) (connectOk : Nat → Bool) (logfile writeOk : Bool) :
    List Conn → Nat → Option String → Option (List String) → RecordsResult
  | [], _, logline, loglines => ⟨[], [], [], logline, loglines, false⟩
  | c :: rest, idx, logline, loglines =>
    if c.1 = false then
      let guard := (onebyone && idx == 0) || !onebyone
      let success := guard && connectOk idx
      let s := (if success then "Restored " else "Problems ") ++ reportline c
      let ev0 : List Event := if guard then [.connectCall idx c] else []
      let loglines' := log logfile writeOk s loglines
      let r := processRecords onebyone connectOk logfile writeOk rest (idx + 1) (some s) loglines'
      ⟨ev0 ++ Event.logCall s :: r.events, (if guard then [idx] else []) ++ r.attempted,
        s :: r.emitted, r.logline, r.loglines, r.nameError⟩
    else
      match logline with
      | none => ⟨[], [], [], none, loglines, true⟩
      | some s =>
        let loglines' := log logfile writeOk s loglines
        let r := processRecords onebyone connectOk logfile writeOk rest (idx + 1) (some s) loglines'
        ⟨Event.logCall s :: r.events, r.attempted, s :: r.emitted,
          r.logline, r.loglines, r.nameError⟩

/-- Line 197: `args.loops if not args.loops == sys.maxint else 'inf'`, rendered. -/
def loopsTotalStr (loops maxint : Int) : String :=
  if loops == maxint then "inf" else toString loops

/-- Line 211: `"Existing {}".format(", ".join(ok))`. -/
def existingLine (ok : List String) : String :=
  "Existing " ++ String.intercalate ", " ok

/-- Configuration of a run, as captured from the command line (plus the
outcome oracles for the file system and the connectivity probe). -/
structure Config where
  timeout : Int
  loops : Int
  loopdelay : Int
  conntimeout : Option Int
  maxint : Int
  onebyone : Bool
  logfile : Bool
  writeOk : Bool
  testmail : Bool
  smtpSet : Bool
  recipientsSet : Bool
  conntest : String
  probeOk : Bool
  deriving DecidableEq

/-- The mutable state threaded through the `for loop in range(args.loops)`
loop: the `loglines` and `logline` module-level variables and the events so
far. -/
structure LoopSt where
  loglines : Option (List String)
  logline : Option String
  events : List Event
  deriving DecidableEq

/-- The reconciliation loop (lines 193-224), from 0-based pass `loop` with
`rem` passes of `range(args.loops)` remaining.  `lister p = none` models
`list_connections` returning `errors = True` on pass `p`; `some conns`
models a successful listing parsed to `conns`.  `connectOk p i` is the
outcome of `connect` on record `i` during pass `p`.  When the `for` loop
ends (by `break` or exhaustion) the final `send(..., loglines)` of line 224
receives the current `loglines`, recorded in `mailedBody`. -/
def runLoop (cfg : Config) (lister : Nat → Option (List Conn)) (connectOk : Nat → Nat → Bool) :
    Nat → Nat → LoopSt → RunOutcome
  | _, 0, st => ⟨st.events, .done, st.loglines⟩
  | loop, rem + 1, st =>
    let header := "Loop " ++ toString (loop + 1) ++ " of " ++ loopsTotalStr cfg.loops cfg.maxint
    let ll1 := log cfg.logfile cfg.writeOk header st.loglines
    let ev1 := st.events ++ [Event.logCall header]
    let delayLine := "Delay " ++ toString cfg.loopdelay ++ "s"
    let ll2 := if loop != 0 then log cfg.logfile cfg.writeOk delayLine ll1 else ll1
    let ev2 := if loop != 0 then ev1 ++ [Event.logCall delayLine] else ev1
    match lister loop with
    | none => ⟨ev2 ++ [Event.logAndSend "Could not read connection list"], .code 1, none⟩
    | some conns =>
      let ok := (conns.filter fun c => c.1).map fun c => c.2.1 ++ c.2.2
      let ll3 := if !ok.isEmpty then log cfg.logfile cfg.writeOk (existingLine ok) ll2 else ll2
      let ev3 := if !ok.isEmpty then ev2 ++ [Event.logCall (existingLine ok)] else ev2
      if !ok.isEmpty && ok.length == conns.length then
        ⟨ev3, .done, ll3⟩
      else
        let r := processRecords cfg.onebyone (connectOk loop) cfg.logfile cfg.writeOk
                   conns 0 st.logline ll3
        if r.nameError then
          ⟨ev3 ++ r.events, .nameError, none⟩
        else
          runLoop cfg lister connectOk (loop + 1) rem ⟨r.loglines, r.logline, ev3 ++ r.events⟩

/-- The sanity checks on lines 52-60.  Python `if args.conntimeout and
args.conntimeout < 0`: `None` and `0` are both falsy, so only a set,
non-zero, negative value trips the check. -/
def sanityChecks (timeout loops loopdelay : Int) (conntimeout : Option Int) :
    Except String Unit :=
  if timeout < 1 then .error "Option --timeout must be positive"
  else if loops < 1 then .error "Option --loops must be positive"
  else if loopdelay < 1 then .error "Option --loopdelay must be positive"
  else
    match conntimeout with
    | some ct => if ct != 0 && ct < 0 then .error "Option --conntimeout must be non-negative" else .ok ()
    | none => .ok ()

/-- Python truthiness of `args.conntimeout` on line 188. -/
def conntimeoutTruthy : Option Int → Bool
  | some ct => ct != 0
  | none => false

/-- The whole script after argument parsing: sanity checks (lines 52-60),
the `--testmail` branch (lines 181-185), the connectivity test (lines
188-190), the reconciliation loop (lines 193-221) started with
`loglines = []` and `logline` unassigned, and the final `send` (line 224). -/
def program (cfg : Config) (lister : Nat → Option (List Conn))
    (connectOk : Nat → Nat → Bool) : RunOutcome :=
  match sanityChecks cfg.timeout cfg.loops cfg.loopdelay cfg.conntimeout with
  | .error msg => ⟨[], .configError msg, none⟩
  | .ok _ =>
    if cfg.testmail then
      if !cfg.smtpSet || !cfg.recipientsSet then
        ⟨[], .configError "Missing option(s) --smtp and/or --recipient", none⟩
      else
        ⟨[Event.logAndSend "This is a test message"], .code 0, none⟩
    else if conntimeoutTruthy cfg.conntimeout && !cfg.probeOk then
      ⟨[Event.logAndSend (cfg.conntest ++ " not reachable after "
          ++ toString (cfg.conntimeout.getD 0) ++ "s")], .code 1, none⟩
    else
      runLoop cfg lister connectOk 0 cfg.loops.toNat ⟨some [], none, []⟩

/-! Concrete inputs used by witnesses and counterexamples. -/

/-- A baseline configuration: the defaults `--timeout 60 --loops 1
--loopdelay 10`, a log file configured and writable, no mail, no
connectivity test, no debug flags. -/
def cfgBase : Config :=
  ⟨60, 1, 10, none, 2147483647, false, true, true, false, false, false, "8.8.8.8:53", true⟩

/-- The two-line listing text of the C4 scenario. -/
def c4text : String :=
  "Status  Local  Remote  Network\nOK  Z:  \\\\server\\\\share  Microsoft Windows Network\n"

/-- The initial loop state: `loglines = []` (line 193), `logline`
unassigned, no events yet. -/
def initSt : LoopSt := ⟨some [], none, []⟩

/-! The claims. -/

/-- C1: the claim says the lister's retry loop terminates once the
per-operation timeout has elapsed since the lister started.  The code
resets `start` at the top of every iteration of the `while True` loop
(line 129), so the deadline check only ever sees the duration of the
current attempt.  This theorem shows the code wrong: if every invocation
of the OS command fails and no single attempt takes longer than the
timeout, `list_connections` is still running after any number of
iterations — it retries forever instead of reporting a hard failure. -/
theorem C1_list_connections_never_returns (timeout fuel : Nat) (attempts : Nat → ListAttempt)
    (h : ∀ j, (attempts j).output = none ∧ (attempts j).dur ≤ timeout) :
    list_connections timeout attempts fuel = none := by
  have key : ∀ fuel i, list_connections_loop timeout attempts i fuel = none := by
    intro fuel
    induction fuel with
    | zero => intro i; rfl
    | succ n ih =>
      intro i
      have hout := (h i).1
      have hdur : ¬ ((attempts i).dur > timeout) := Nat.not_lt.mpr (h i).2
      simp [list_connections_loop, hout, hdur, ih]
  simp [list_connections, key]

/-- C1 witness: sixty immediately-failing invocations with timeout 60
leave the lister still looping. -/
theorem C1_witness :
    list_connections 60 (fun _ => ListAttempt.mk none 0) 60 = none :=
  C1_list_connections_never_returns 60 60 (fun _ => ListAttempt.mk none 0)
    (fun _ => ⟨rfl, Nat.zero_le 60⟩)

/-- C4 counterexample: parsing the two-line scenario text yields no
records at all, not the claimed single record: the matching `OK` row is
the final line, and `zip(lines[:-1], lines[1:])` never presents the final
line as the current line of a pair. -/
theorem C4_counterexample :
    parse_connections c4text = [] ∧
    parse_connections c4text ≠ [(true, "Z:", "\\\\server\\\\share")] := by
  constructor
  · decide
  · decide

/-- C4 amended: the same row parses to exactly the claimed record
`(connected = true, local_name = "Z:", remote_path = "\\server\share")`
via the 6-column pattern as soon as any further line follows it (as the
OS's trailing status line always does in practice). -/
theorem C4_amended :
    parse_connections (c4text ++ "The command completed successfully.\n") =
      [(true, "Z:", "\\\\server\\\\share")] := by
  decide

/-- Helper for C5: under one-by-one mode, the per-record loop started at
any index other than 0 attempts nothing, because the guard
`args.onebyone and not idx` is false for every later index. -/
theorem processRecords_onebyone_tail_attempts_nil
    (connectOk : Nat → Bool) (logfile writeOk : Bool) :
    ∀ (conns : List Conn) (idx : Nat) (logline : Option String)
      (loglines : Option (List String)), idx ≠ 0 →
      (processRecords true connectOk logfile writeOk conns idx logline loglines).attempted = [] := by
  intro conns
  induction conns with
  | nil => intro idx _ _ _; rfl
  | cons c rest ih =>
    intro idx logline loglines hidx
    have hbeq : (idx == 0) = false := by simpa using hidx
    by_cases hc : c.1 = false
    · simp [processRecords, hc, hbeq, ih]
    · have hct : c.1 = true := by cases h : c.1 <;> simp_all
      cases logline with
      | none => simp [processRecords, hct]
      | some s => simp [processRecords, hct, ih]

/-- C5 counterexample: with one-by-one set and the listing
`[connected Z:, disconnected Y:]` there is exactly one disconnected
record, yet nothing at all is attempted in the pass: the guard
`args.onebyone and not idx` keys on index 0 of the full record list, and
record 0 is connected, so the first disconnected record (at index 1) is
skipped — contradicting the claim that the first disconnected record is
attempted regardless of where it sits. -/
theorem C5_counterexample :
    (processRecords true (fun _ => true) true true
        [(true, "Z:", "\\\\a\\\\b"), (false, "Y:", "\\\\c\\\\d")] 0
        (some "prev") (some ["x"])).attempted = [] ∧
    (([(true, "Z:", "\\\\a\\\\b"), (false, "Y:", "\\\\c\\\\d")] : List Conn).filter
        fun c => !c.1).length = 1 := by
  decide

/-- C5 amended: in one-by-one mode a reconnection is attempted exactly
when the record at index 0 of the full listing is disconnected, and then
only that record is attempted; when the record at index 0 is connected
(or the listing is empty), no record is attempted that pass, whatever
the other records' states. -/
theorem C5_amended (connectOk : Nat → Bool) (logfile writeOk : Bool)
    (conns : List Conn) (logline : Option String) (loglines : Option (List String)) :
    (processRecords true connectOk logfile writeOk conns 0 logline loglines).attempted =
      (match conns with
       | [] => []
       | c :: _ => if c.1 then [] else [0]) := by
  cases conns with
  | nil => rfl
  | cons c rest =>
    by_cases hc : c.1 = false
    · simp [processRecords, hc, processRecords_onebyone_tail_attempts_nil]
    · have hct : c.1 = true := by cases h : c.1 <;> simp_all
      cases logline with
      | none => simp [processRecords, hct]
      | some s => simp [processRecords, hct, processRecords_onebyone_tail_attempts_nil]

/-- C10: the per-record log-line variable can be read before it is ever
assigned.  On the very first pass, with the listing
`[connected Z:, disconnected Y:]`, the loop reaches the per-record step
(one record is disconnected), record 0 is connected so the `if not
connection[0]` body does not run, and the `log(args.logfile, logline,
loglines)` call on line 221 reads `logline` before any assignment: the
run aborts with a `NameError` instead of completing the pass. -/
theorem C10_name_error_on_connected_first_record :
    program cfgBase
      (fun _ => some [(true, "Z:", "\\\\s\\\\p"), (false, "Y:", "\\\\s\\\\q")])
      (fun _ _ => true) =
    ⟨[Event.logCall "Loop 1 of 1", Event.logCall "Existing Z:\\\\s\\\\p"],
      ExitKind.nameError, none⟩ := by
  decide

/-- C8 counterexample: with the loop count configured to 0 (and a
disconnected share that would need reconnecting), the run does not loop
at all, let alone unboundedly: the sanity check on line 55 raises
`ValueError("Option --loops must be positive")` before any pass, so no
"Loop k of N" line is ever emitted. -/
theorem C8_counterexample :
    program { cfgBase with loops := 0 }
      (fun _ => some [(false, "Y:", "\\\\s\\\\q")]) (fun _ _ => true) =
    ⟨[], ExitKind.configError "Option --loops must be positive", none⟩ := by
  decide

/-- C8 amended: a configured loop count of 0 is rejected at startup by
the sanity checks (line 55) before the reconciliation loop can run; the
loop never runs unbounded, and the pass total is rendered "inf" exactly
in the code's own sentinel case, when the loop count equals
`sys.maxint`. -/
theorem C8_amended :
    (∀ (cfg : Config) (lister : Nat → Option (List Conn))
        (connectOk : Nat → Nat → Bool), cfg.loops = 0 → 1 ≤ cfg.timeout →
        program cfg lister connectOk =
          ⟨[], ExitKind.configError "Option --loops must be positive", none⟩) ∧
    (∀ m : Int, loopsTotalStr m m = "inf") := by
  constructor
  · intro cfg lister connectOk h0 ht
    have h1 : ¬ (cfg.timeout < 1) := by omega
    simp [program, sanityChecks, h0, h1]
  · intro m
    simp [loopsTotalStr]

/-- C8 witness: the amended statement at a concrete configuration with
`--loops 0`. -/
theorem C8_witness :
    program { cfgBase with loops := 0 } (fun _ => some []) (fun _ _ => false) =
      ⟨[], ExitKind.configError "Option --loops must be positive", none⟩ :=
  C8_amended.1 { cfgBase with loops := 0 } (fun _ => some []) (fun _ _ => false)
    rfl (by decide)

/-- C2: whenever `list_connections` reports a hard listing failure on any
pass of the reconciliation loop (any pass index, any remaining budget,
any accumulated state), the run immediately reports "Could not read
connection list" via `log_and_send`, exits with code 1, and from the
start of that pass onwards no connect command is invoked. -/
theorem C2_listing_failure_aborts (cfg : Config) (lister : Nat → Option (List Conn))
    (connectOk : Nat → Nat → Bool) (loop rem : Nat) (st : LoopSt)
    (h : lister loop = none) :
    (runLoop cfg lister connectOk loop (rem + 1) st).exit = ExitKind.code 1 ∧
    Event.logAndSend "Could not read connection list" ∈
      (runLoop cfg lister connectOk loop (rem + 1) st).events ∧
    ((runLoop cfg lister connectOk loop (rem + 1) st).events.drop st.events.length).all
      (fun e => !e.isConnect) = true := by
  cases hl : (loop != 0) <;>
    simp [runLoop, h, hl, Event.isConnect, List.append_assoc, List.drop_left]

/-- C2 witness: a run whose very first listing fails. -/
theorem C2_witness :
    (runLoop cfgBase (fun _ => none) (fun _ _ => true) 0 1 initSt).exit = ExitKind.code 1 ∧
    Event.logAndSend "Could not read connection list" ∈
      (runLoop cfgBase (fun _ => none) (fun _ _ => true) 0 1 initSt).events ∧
    ((runLoop cfgBase (fun _ => none) (fun _ _ => true) 0 1 initSt).events.drop
        initSt.events.length).all (fun e => !e.isConnect) = true :=
  C2_listing_failure_aborts cfgBase (fun _ => none) (fun _ _ => true) 0 0 initSt rfl

/-- C6 counterexample: with `--loops 2` and a listing that parses to the
empty record list (every record vacuously connected), the loop does not
stop early: the guard on line 210 is `if len(ok):`, which is false for an
empty listing, so the `break` on line 213 is never reached and pass 2
runs (its "Loop 2 of 2" header and "Delay 10s" line are emitted). -/
theorem C6_counterexample :
    program { cfgBase with loops := 2 } (fun _ => some []) (fun _ _ => true) =
      ⟨[Event.logCall "Loop 1 of 2", Event.logCall "Loop 2 of 2",
         Event.logCall "Delay 10s"], ExitKind.done, none⟩ := by
  decide

/-- C6 amended: for every pass whose parsed record list is non-empty with
every record connected, no reconnection is attempted in that pass and the
loop `break`s out of the remaining passes: the outcome is the same as if
this were the last configured pass, and the run ends normally. For an
empty record list no reconnection is attempted either, but the loop does
not stop early. -/
theorem C6_amended (cfg : Config) (lister : Nat → Option (List Conn))
    (connectOk : Nat → Nat → Bool) (loop rem : Nat) (st : LoopSt) (conns : List Conn)
    (h : lister loop = some conns) (hne : conns ≠ []) (hall : ∀ c ∈ conns, c.1 = true) :
    runLoop cfg lister connectOk loop (rem + 1) st =
      runLoop cfg lister connectOk loop 1 st ∧
    (runLoop cfg lister connectOk loop (rem + 1) st).exit = ExitKind.done ∧
    ((runLoop cfg lister connectOk loop (rem + 1) st).events.drop st.events.length).all
      (fun e => !e.isConnect) = true := by
  have hfilter : conns.filter (fun c => c.1) = conns :=
    List.filter_eq_self.mpr (by simpa using hall)
  cases hl : (loop != 0) <;>
    simp [runLoop, h, hl, hfilter, hne, Event.isConnect, List.append_assoc, List.drop_left]

/-- C6 witness: one non-empty all-connected listing on the first of two
passes stops the loop after pass 1. -/
theorem C6_witness :
    runLoop cfgBase (fun _ => some [(true, "W:", "\\\\w\\\\w")]) (fun _ _ => true) 0 2 initSt =
      runLoop cfgBase (fun _ => some [(true, "W:", "\\\\w\\\\w")]) (fun _ _ => true) 0 1 initSt ∧
    (runLoop cfgBase (fun _ => some [(true, "W:", "\\\\w\\\\w")]) (fun _ _ => true) 0 2 initSt).exit =
      ExitKind.done ∧
    ((runLoop cfgBase (fun _ => some [(true, "W:", "\\\\w\\\\w")]) (fun _ _ => true) 0 2
        initSt).events.drop initSt.events.length).all (fun e => !e.isConnect) = true :=
  C6_amended cfgBase (fun _ => some [(true, "W:", "\\\\w\\\\w")]) (fun _ _ => true) 0 1 initSt
    [(true, "W:", "\\\\w\\\\w")] rfl (by decide) (by decide)

/-- Lemma: `log` never returns a list when handed `None`: every branch yields
`None`. -/
theorem log_none (f w : Bool) (s : String) : log f w s none = none := by
  simp [log]

/-- Lemma: `log` never returns a list when handed the empty list: the Python
truthiness guard `if loglines:` skips the append for an empty list, and
the final `if loglines: return loglines` then falls through to `None`. -/
theorem log_some_nil (f w : Bool) (s : String) : log f w s (some []) = none := by
  simp [log]

/-- Once `loglines` is `None`, the per-record loop keeps it `None`. -/
theorem processRecords_loglines_none (o : Bool) (ck : Nat → Bool) (f w : Bool) :
    ∀ (conns : List Conn) (idx : Nat) (logline : Option String),
      (processRecords o ck f w conns idx logline none).loglines = none := by
  intro conns
  induction conns with
  | nil => intro idx logline; rfl
  | cons c rest ih =>
    intro idx logline
    by_cases hc : c.1 = false
    · simp [processRecords, hc, log_none, ih]
    · have hct : c.1 = true := by cases hb : c.1 <;> simp_all
      cases logline with
      | none => simp [processRecords, hct]
      | some s => simp [processRecords, hct, log_none, ih]

/-- Once `loglines` is `None` or the empty list, whatever the loop does
afterwards, the final `send` receives `None` or the empty list. -/
theorem runLoop_mailedBody_degenerate (cfg : Config) (lister : Nat → Option (List Conn))
    (connectOk : Nat → Nat → Bool) :
    ∀ (rem loop : Nat) (st : LoopSt),
      (st.loglines = none ∨ st.loglines = some []) →
      ((runLoop cfg lister connectOk loop rem st).mailedBody = none ∨
       (runLoop cfg lister connectOk loop rem st).mailedBody = some []) := by
  intro rem
  induction rem with
  | zero => intro loop st h; simpa [runLoop] using h
  | succ n ih =>
    intro loop st h
    rcases h with h | h <;>
    · cases hlst : lister loop with
      | none => cases hl : (loop != 0) <;> simp [runLoop, hlst, hl, h, log_none, log_some_nil]
      | some conns =>
        cases hl : (loop != 0) <;>
          · simp only [runLoop, hlst, hl, h, log_none, log_some_nil, Bool.false_eq_true,
              if_false, if_true, ite_self, processRecords_loglines_none]
            split
            · simp
            · split
              · simp
              · exact ih _ _ (Or.inl rfl)

/-- C3: the claim says every report line is appended to the accumulated
`loglines` and the mailed body is non-empty whenever at least one pass
ran.  The code is wrong: `log`'s `if loglines:` truthiness guard treats
the initial empty list as falsy, so the very first `loglines = log(...)`
assignment of the run returns `None`, and nothing ever accumulates — the
final `send` always receives `None` (or the untouched empty list), never
a non-empty body.  The second conjunct evaluates a concrete one-pass run:
two report lines are emitted, yet the body handed to the mail sink is
`None`. -/
theorem C3_mailed_body_always_empty :
    (∀ (cfg : Config) (lister : Nat → Option (List Conn)) (connectOk : Nat → Nat → Bool),
       (program cfg lister connectOk).mailedBody = none ∨
       (program cfg lister connectOk).mailedBody = some []) ∧
    program cfgBase (fun _ => some [(true, "Z:", "\\\\s\\\\p")]) (fun _ _ => true) =
      ⟨[Event.logCall "Loop 1 of 1", Event.logCall "Existing Z:\\\\s\\\\p"],
        ExitKind.done, none⟩ := by
  constructor
  · intro cfg lister connectOk
    unfold program
    split
    · simp
    · split
      · split
        · simp
        · simp
      · split
        · simp
        · exact runLoop_mailedBody_degenerate cfg lister connectOk _ _ _ (Or.inr rfl)
  · decide

/-- The row condition written in the source (line 154-155, Python
precedence) coincides with the two patterns as §4.3 words them. -/
theorem rowMatch_eq_spec (cols nextcols : List String) :
    rowMatch cols nextcols = (spec_sixCol cols || spec_wrapped cols nextcols) := by
  unfold rowMatch spec_sixCol spec_wrapped
  cases h1 : (nextcols.length == 3) <;> cases h2 : matchDrive (cols.getD 1 "") <;>
    simp [h1, h2]

/-- C7: the parser extracts exactly the rows matched by the two
documented patterns over the adjacent line pairs of the listing, in the
original line order, ignoring every other line: `parse_connections`
coincides with the parser written directly from the words of §4.3.
Determinism is immediate: both sides are pure functions of the text, so
re-parsing the same text yields the same record sequence. -/
theorem C7_parse_refines_spec (text : String) :
    parse_connections text = spec_parse text := by
  unfold parse_connections spec_parse
  generalize splitlines text = lines
  induction lines with
  | nil => rfl
  | cons a t ih =>
    cases t with
    | nil => rfl
    | cons b t2 =>
      simp only [List.dropLast, List.drop_succ_cons, List.drop_zero, List.zip_cons_cons,
        List.filterMap_cons, spec_rows, List.getD_eq_getElem?_getD] at ih ⊢
      rw [rowMatch_eq_spec]
      cases hc : (spec_sixCol (pysplit a) || spec_wrapped (pysplit a) (pysplit b)) <;>
        simp [hc, ih]

/-- Two report lines with the same record text but different verbs are
distinct strings. -/
theorem restored_ne_problems (x : String) :
    ("Restored " ++ x) ≠ ("Problems " ++ x) := by
  intro hcontra
  have h2 : ("Restored " : String).data ++ x.data = ("Problems " : String).data ++ x.data := by
    simpa [String.data_append] using congrArg String.data hcontra
  have h4 : ("Restored " : String) = "Problems " := String.ext (List.append_cancel_right h2)
  exact absurd h4 (by decide)

/-- Full characterisation of the per-record loop when it completes
without a `NameError`: one log call per record; a disconnected record at
overall index `idx + i` is logged "Restored" when the one-by-one guard
admits it and `connect` succeeds, "Problems" otherwise; and `connect` is
invoked exactly on the disconnected records the guard admits. -/
theorem processRecords_char (o : Bool) (ck : Nat → Bool) (f w : Bool) :
    ∀ (conns : List Conn) (idx : Nat) (logline : Option String)
      (loglines : Option (List String)),
      (processRecords o ck f w conns idx logline loglines).nameError = false →
      ((processRecords o ck f w conns idx logline loglines).emitted.length = conns.length ∧
       (∀ i (hi : i < conns.length), (conns[i]).1 = false →
         (processRecords o ck f w conns idx logline loglines).emitted.getD i "" =
           (if ((o && (idx + i) == 0) || !o) && ck (idx + i) then "Restored "
            else "Problems ") ++ reportline conns[i]) ∧
       (∀ j, j ∈ (processRecords o ck f w conns idx logline loglines).attempted ↔
         ∃ i, ∃ hi : i < conns.length, j = idx + i ∧ (conns[i]).1 = false ∧
           ((o && (idx + i) == 0) || !o) = true)) := by
  intro conns
  induction conns with
  | nil =>
    intro idx logline loglines _
    refine ⟨rfl, ?_, ?_⟩
    · intro i hi; exact absurd hi (Nat.not_lt_zero i)
    · intro j
      constructor
      · intro hj; exact absurd hj (by simp [processRecords])
      · rintro ⟨i, hi, _⟩; exact absurd hi (Nat.not_lt_zero i)
  | cons c rest ih =>
    intro idx logline loglines hne
    by_cases hc : c.1 = false
    · simp only [processRecords, hc, eq_self_iff_true, if_true] at hne ⊢
      have IH := ih (idx + 1) _ _ hne
      refine ⟨?_, ?_, ?_⟩
      · simp only [List.length_cons, IH.1]
      · intro i hi hdis
        cases i with
        | zero =>
          simp only [List.getD_cons_zero, List.getElem_cons_zero, Nat.add_zero]
        | succ i2 =>
          have hi2 : i2 < rest.length := by simpa using hi
          have hdis2 : (rest[i2]).1 = false := by simpa using hdis
          have e : idx + (i2 + 1) = idx + 1 + i2 := by omega
          simp only [List.getD_cons_succ, List.getElem_cons_succ, e]
          exact IH.2.1 i2 hi2 hdis2
      · intro j
        rw [List.mem_append]
        constructor
        · intro hj
          rcases hj with hj | hj
          · by_cases hg : ((o && idx == 0) || !o) = true
            · rw [if_pos hg] at hj
              simp only [List.mem_singleton] at hj
              subst hj
              exact ⟨0, by simp, by simp, by simpa using hc, by simpa using hg⟩
            · rw [if_neg hg] at hj
              exact absurd hj (by simp)
          · obtain ⟨i, hi, hji, hdis, hg⟩ := (IH.2.2 j).mp hj
            refine ⟨i + 1, by simpa using hi, by omega, by simpa using hdis, ?_⟩
            have e : idx + (i + 1) = idx + 1 + i := by omega
            rw [e]; exact hg
        · rintro ⟨i, hi, hji, hdis, hg⟩
          cases i with
          | zero =>
            left
            have hg0 : ((o && idx == 0) || !o) = true := by simpa using hg
            rw [if_pos hg0]
            simp only [List.mem_singleton]
            omega
          | succ i2 =>
            right
            have e : idx + (i2 + 1) = idx + 1 + i2 := by omega
            exact (IH.2.2 j).mpr ⟨i2, by simpa using hi, by omega,
              by simpa using hdis, by rw [← e]; exact hg⟩
    · have hct : c.1 = true := by cases hb : c.1 <;> simp_all
      cases logline with
      | none =>
        exact absurd hne (by simp [processRecords, hct])
      | some s0 =>
        simp only [processRecords, hct, Bool.true_eq_false, if_false] at hne ⊢
        have IH := ih (idx + 1) _ _ hne
        refine ⟨?_, ?_, ?_⟩
        · simp only [List.length_cons, IH.1]
        · intro i hi hdis
          cases i with
          | zero => exact absurd (by simpa using hdis) (by simp [hct])
          | succ i2 =>
            have hi2 : i2 < rest.length := by simpa using hi
            have hdis2 : (rest[i2]).1 = false := by simpa using hdis
            have e : idx + (i2 + 1) = idx + 1 + i2 := by omega
            simp only [List.getD_cons_succ, List.getElem_cons_succ, e]
            exact IH.2.1 i2 hi2 hdis2
        · intro j
          constructor
          · intro hj
            obtain ⟨i, hi, hji, hdis, hg⟩ := (IH.2.2 j).mp hj
            refine ⟨i + 1, by simpa using hi, by omega, by simpa using hdis, ?_⟩
            have e : idx + (i + 1) = idx + 1 + i := by omega
            rw [e]; exact hg
          · rintro ⟨i, hi, hji, hdis, hg⟩
            cases i with
            | zero => exact absurd (by simpa using hdis) (by simp [hct])
            | succ i2 =>
              have e : idx + (i2 + 1) = idx + 1 + i2 := by omega
              exact (IH.2.2 j).mpr ⟨i2, by simpa using hi, by omega,
                by simpa using hdis, by rw [← e]; exact hg⟩

/-- C9 counterexample: one-by-one mode, two disconnected records, first
reconnection succeeds.  Only record 0 is attempted, yet record 1 — which
one-by-one mode skipped and which was never attempted — still gets a new
"Problems X:..." log line this pass, contradicting the claim that skipped
records get no new log line. -/
theorem C9_counterexample :
    (processRecords true (fun _ => true) true true
        [(false, "Y:", "\\\\c\\\\c"), (false, "X:", "\\\\d\\\\d")] 0 none (some [])).attempted
      = [0] ∧
    (processRecords true (fun _ => true) true true
        [(false, "Y:", "\\\\c\\\\c"), (false, "X:", "\\\\d\\\\d")] 0 none (some [])).emitted
      = ["Restored Y:\\\\c\\\\c", "Problems X:\\\\d\\\\d"] := by
  decide

/-- C9 amended: in a pass that completes the per-record step, every
disconnected record gets exactly one new log line: "Restored X" exactly
when a reconnection was attempted on it and succeeded, and "Problems X"
otherwise — including disconnected records that one-by-one mode skipped
without attempting (they do get a "Problems" line, and remain candidates
for the next pass); under one-by-one mode no record beyond index 0 is
ever attempted. -/
theorem C9_amended (o : Bool) (ck : Nat → Bool) (f w : Bool) (conns : List Conn)
    (logline : Option String) (loglines : Option (List String))
    (hne : (processRecords o ck f w conns 0 logline loglines).nameError = false) :
    (processRecords o ck f w conns 0 logline loglines).emitted.length = conns.length ∧
    ∀ i (hi : i < conns.length), (conns[i]).1 = false →
      ((processRecords o ck f w conns 0 logline loglines).emitted.getD i "" =
          "Restored " ++ reportline conns[i] ↔
        i ∈ (processRecords o ck f w conns 0 logline loglines).attempted ∧ ck i = true) ∧
      (i ∉ (processRecords o ck f w conns 0 logline loglines).attempted →
        (processRecords o ck f w conns 0 logline loglines).emitted.getD i "" =
          "Problems " ++ reportline conns[i]) ∧
      (o = true → 0 < i →
        i ∉ (processRecords o ck f w conns 0 logline loglines).attempted) := by
  obtain ⟨h1, h2, h3⟩ := processRecords_char o ck f w conns 0 logline loglines hne
  simp only [Nat.zero_add] at h2 h3
  refine ⟨h1, ?_⟩
  intro i hi hdis
  have hform := h2 i hi hdis
  have hmem : i ∈ (processRecords o ck f w conns 0 logline loglines).attempted ↔
      ((o && i == 0) || !o) = true := by
    rw [h3 i]
    constructor
    · rintro ⟨i2, hi2, hji, hdis2, hg⟩
      subst hji
      exact hg
    · intro hg
      exact ⟨i, hi, rfl, hdis, hg⟩
  refine ⟨?_, ?_, ?_⟩
  · constructor
    · intro hr
      by_cases hgc : (((o && i == 0) || !o) && ck i) = true
      · obtain ⟨hg, hck⟩ := Bool.and_eq_true_iff.mp hgc
        exact ⟨hmem.mpr hg, hck⟩
      · rw [if_neg hgc] at hform
        exact absurd (hform.symm.trans hr).symm (restored_ne_problems _)
    · rintro ⟨hmem', hck⟩
      have hg := hmem.mp hmem'
      rw [hform, if_pos (by simp [hg, hck])]
  · intro hnmem
    have hgf : ((o && i == 0) || !o) = false := by
      cases hgg : ((o && i == 0) || !o) with
      | true => exact absurd (hmem.mpr hgg) hnmem
      | false => rfl
    rw [hform, if_neg (by simp [hgf])]
  · intro ho hi0 hmem'
    have hg := hmem.mp hmem'
    rw [ho] at hg
    simp only [Bool.true_and, Bool.not_true, Bool.or_false, beq_iff_eq] at hg
    omega

/-- C9 witness: the amended statement at a concrete pass — record 1 was
skipped by one-by-one mode (not attempted) and is logged "Problems". -/
theorem C9_witness :
    (processRecords true (fun _ => true) true true
        [(false, "Y:", "\\\\a\\\\a"), (false, "X:", "\\\\b\\\\b")] 0 none none).emitted.getD 1 ""
      = "Problems " ++ reportline (([(false, "Y:", "\\\\a\\\\a"),
          (false, "X:", "\\\\b\\\\b")] : List Conn)[1]) :=
  (((C9_amended true (fun _ => true) true true
      [(false, "Y:", "\\\\a\\\\a"), (false, "X:", "\\\\b\\\\b")] none none (by decide)).2
      1 (by decide) (by decide)).2.1) (by decide)

end RestoreNetUse
